import Mathlib

/-!
Verification development for a simple MLflow-to-Jetson file-transfer
deployment plugin.  The Python sources are shallowly embedded:

* `JetsonConfig` and its `validate`/`to_dict`/`__str__` methods
  (`config.py`);
* the SSH connection manager `SSHManager.connect`,
  `SSHManager.execute_command`, `SSHManager.transfer_file`
  (`ssh_manager.py`);
* the package builder `SimplePackageBuilder` (`simple_package_builder.py`),
  modelled as the set of relative paths staged into the archive;
* the deployment orchestrator `SimpleJetsonDeploymentTarget`
  (`simple_plugin.py`), modelled as a state-passing function over an
  abstract remote filesystem together with a trace of the shell commands
  it attempts.

External effects (the SSH transport, the local filesystem, `tarfile`,
`datetime.now()`, `Path.expanduser`) are parameters: each embedded
function takes an oracle describing the outcome of every such effect and
the theorems quantify over all oracles.
-/

/-! ## Configuration record (`config.py`, class `JetsonConfig`) -/

/-- Embeds the `JetsonConfig` dataclass.  Python `Optional[str]` fields
become `Option String`; Python `int` becomes `Int`.  Defaults are the
dataclass defaults. -/
structure JetsonConfig where
  device_ip : String
  username : String := "newcastleuni"
  ssh_key_path : Option String := none
  password : Option String := none
  deployment_base_path : String := "/home/newcastleuni/mlflow_deployments"
  timeout : Int := 120
  max_retries : Int := 3
deriving DecidableEq

/-- Python truthiness of an `Optional[str]`: `None` and the empty string
are falsy, every other string is truthy. -/
def truthy : Option String → Bool
  | none => false
  | some s => !(s == "")

/-- The default key files `validate` looks for when neither
`ssh_key_path` nor `password` is supplied (`config.py` lines 98-102). -/
def default_key_paths : List String :=
  ["~/.ssh/jetson_key", "~/.ssh/id_rsa", "~/.ssh/id_ed25519"]

/-- The timeout / retry checks at the end of `validate`
(`config.py` lines 130-136). -/
def validateNumeric (cfg : JetsonConfig) : Except String JetsonConfig :=
  if cfg.timeout ≤ 0 then .error "timeout must be positive"
  else if cfg.max_retries < 0 then .error "max_retries must be non-negative"
  else .ok cfg

/-- Embeds `JetsonConfig.validate` (`config.py` lines 78-136).

* `file_exists` is the oracle for `Path.exists()`;
* `expanduser` is the oracle for `Path.expanduser()`.

The Python method mutates `self.ssh_key_path`; the embedding returns the
updated record.  The IP-format block (`config.py` lines 83-93) raises
only `ValueError`, which its own `except ValueError: pass` handler
swallows, so it has no observable effect and is omitted. -/
def validate (file_exists : String → Bool) (expanduser : String → String)
    (cfg : JetsonConfig) : Except String JetsonConfig :=
  if cfg.device_ip == "" then .error "device_ip is required"
  else
    match
      (if !(truthy cfg.ssh_key_path) && !(truthy cfg.password) then
        match default_key_paths.find? (fun p => file_exists (expanduser p)) with
        | some p => .ok { cfg with ssh_key_path := some (expanduser p) }
        | none => .error "Either ssh_key_path or password must be provided."
      else .ok cfg : Except String JetsonConfig)
    with
    | .error e => .error e
    | .ok cfg1 =>
      if truthy cfg1.ssh_key_path then
        let kp := cfg1.ssh_key_path.getD ""
        if !(file_exists (expanduser kp)) then
          .error ("SSH key not found: " ++ kp)
        else validateNumeric cfg1
      else validateNumeric cfg1

/-- A usable key credential after validation: the field is truthy and the
(expanded) key file exists on disk. -/
def usable_key (file_exists : String → Bool) (expanduser : String → String)
    (cfg : JetsonConfig) : Bool :=
  truthy cfg.ssh_key_path && file_exists (expanduser (cfg.ssh_key_path.getD ""))

/-- A usable password credential: the field is truthy. -/
def usable_password (cfg : JetsonConfig) : Bool :=
  truthy cfg.password

/-! ## `to_dict` and `__str__` (`config.py` lines 138-155) -/

/-- A Python dictionary value as it appears in `to_dict`'s result. -/
inductive PyVal where
  | vstr (s : String)
  | vnone
  | vint (n : Int)
deriving DecidableEq

/-- Python `repr` of a dict value, for values without special characters
(every value `to_dict` produces from the fields modelled here). -/
def pyRepr : PyVal → String
  | .vstr s => "\x27" ++ s ++ "\x27"
  | .vnone => "None"
  | .vint n => toString n

/-- Lift an `Optional[str]` field into a dict value. -/
def optVal : Option String → PyVal
  | none => .vnone
  | some s => .vstr s

/-- Python truthiness of a dict value (`if config_dict["password"]:`). -/
def truthyVal : PyVal → Bool
  | .vstr s => !(s == "")
  | .vnone => false
  | .vint n => !(n == 0)

/-- Embeds `JetsonConfig.to_dict` (`config.py` lines 138-148): a fresh
key/value list in the insertion order of the Python dict literal. -/
def to_dict (cfg : JetsonConfig) : List (String × PyVal) :=
  [("device_ip", .vstr cfg.device_ip),
   ("username", .vstr cfg.username),
   ("ssh_key_path", optVal cfg.ssh_key_path),
   ("password", optVal cfg.password),
   ("deployment_base_path", .vstr cfg.deployment_base_path),
   ("timeout", .vint cfg.timeout),
   ("max_retries", .vint cfg.max_retries)]

/-- Renders a dict the way Python string-formats it:
`\x7b'k': v, ...\x7d`. -/
def renderDict (l : List (String × PyVal)) : String :=
  "\x7b" ++ String.intercalate ", "
      (l.map (fun kv => "\x27" ++ kv.1 ++ "\x27: " ++ pyRepr kv.2))
    ++ "\x7d"

/-- The mutation `if config_dict["password"]: config_dict["password"] =
"***hidden***"` applied to the (copied) dict. -/
def maskPassword (l : List (String × PyVal)) : List (String × PyVal) :=
  l.map (fun kv =>
    if kv.1 == "password" && truthyVal kv.2 then (kv.1, .vstr "***hidden***")
    else kv)

/-- Embeds `JetsonConfig.__str__` (`config.py` lines 150-155).  It reads
the record through `to_dict` and masks the password entry of the copy;
the record itself is not touched (the embedding is a pure function of
`cfg`). -/
def strOfConfig (cfg : JetsonConfig) : String :=
  "JetsonConfig(" ++ renderDict (maskPassword (to_dict cfg)) ++ ")"

/-- Substring test on strings (via the underlying character lists). -/
def listContainsSub (pat : List Char) : List Char → Bool
  | [] => pat.isEmpty
  | c :: rest => pat.isPrefixOf (c :: rest) || listContainsSub pat rest

/-- `strContains s pat` is true when `pat` occurs contiguously in `s`. -/
def strContains (s pat : String) : Bool :=
  listContainsSub pat.data s.data

/-! ## SSH layer (`ssh_manager.py`, class `SSHManager`) -/

/-- The structured result `execute_command` returns
(`ssh_manager.py` lines 105-111). -/
structure CommandResult where
  exit_status : Int
  stdout : String
  stderr : String
  command : String
  success : Bool
deriving DecidableEq

/-- Outcome of one `exec_command` round trip on an established session:
either the command runs to completion with an exit status and captured
output, or the transport fails mid-flight (broken session, timeout)
and `exec_command`/`recv_exit_status` raises with message `msg`. -/
inductive ExecBeh where
  | completes (exit_status : Int) (stdout stderr : String)
  | raises (msg : String)
deriving DecidableEq

/-- Python `timeout or self.config.timeout` (`ssh_manager.py` line 90):
`None` and `0` fall back to the configured timeout. -/
def effectiveTimeout (cfg : JetsonConfig) (timeout : Option Int) : Int :=
  match timeout with
  | some t => if t == 0 then cfg.timeout else t
  | none => cfg.timeout

/-- Embeds `SSHManager.execute_command` (`ssh_manager.py` lines 88-122).

* `connectRes` is the outcome of the `self.connect()` call, which sits
  before the `try` block: its exception propagates unwrapped;
* `beh` maps the effective timeout to the transport outcome;
* a completed command yields a `CommandResult` whose `success` flag is
  `exit_status == 0` and whose outputs are `.strip()`ped;
* a transport failure is re-raised wrapped as
  `Failed to execute command '<cmd>': <msg>`. -/
def execute_command (cfg : JetsonConfig) (connectRes : Except String Unit)
    (beh : Int → ExecBeh) (command : String) (timeout : Option Int) :
    Except String CommandResult :=
  let t := effectiveTimeout cfg timeout
  match connectRes with
  | .error m => .error m
  | .ok _ =>
    match beh t with
    | .completes es out err =>
      .ok { exit_status := es, stdout := out.trim, stderr := err.trim,
            command := command, success := es == 0 }
    | .raises m =>
      .error ("Failed to execute command \x27" ++ command ++ "\x27: " ++ m)

/-- Abstract handle for one underlying paramiko session. -/
structure Session where
  sid : Nat
deriving DecidableEq

/-- The credential `connect` hands to `paramiko.connect`: the key file if
`ssh_key_path` is truthy, the password otherwise
(`ssh_manager.py` lines 40-55). -/
inductive Cred where
  | key (path : String)
  | pwd (password : Option String)
deriving DecidableEq

/-- Which credential the configured connection uses (key preferred). -/
def credMethod (cfg : JetsonConfig) : Cred :=
  if truthy cfg.ssh_key_path then .key (cfg.ssh_key_path.getD "")
  else .pwd cfg.password

/-- The liveness probe `connect` sends on a cached session
(`ssh_manager.py` line 28). -/
def probeCommand : String := "echo \"test\""

/-- The probe timeout (`ssh_manager.py` line 28). -/
def probeTimeout : Int := 5

/-- Opening a brand-new session (`ssh_manager.py` lines 36-62): on
success the session is cached and returned, on failure `connect` raises
`ConnectionError("SSH connection failed: ...")`.  `fresh` is the oracle
for `paramiko.SSHClient.connect`, fed the configured credential and
connect timeout. -/
def freshConnect (cfg : JetsonConfig)
    (fresh : Cred → Int → Except String Session) :
    Except String (Session × Option Session) :=
  match fresh (credMethod cfg) cfg.timeout with
  | .ok s => .ok (s, some s)
  | .error m => .error ("SSH connection failed: " ++ m)

/-- Embeds `SSHManager.connect` (`ssh_manager.py` lines 23-62).

* `cached` is the current `self._ssh_client`;
* `probe` is the oracle for the no-op `exec_command` probing a cached
  session (argument order: command text, timeout) — `true` means the
  probe did not raise;
* on probe success the cached session is returned unchanged; on probe
  failure it is closed and discarded and a fresh session is opened;
* the returned pair is (session handle, new cached state).
  On failure the Python object keeps an unconnected client in
  `self._ssh_client`; a subsequent probe of it always fails, so the
  error result carries no cached state. -/
def SSHManager.connect (cfg : JetsonConfig) (cached : Option Session)
    (probe : String → Int → Bool)
    (fresh : Cred → Int → Except String Session) :
    Except String (Session × Option Session) :=
  match cached with
  | some s =>
    if probe probeCommand probeTimeout then .ok (s, some s)
    else freshConnect cfg fresh
  | none => freshConnect cfg fresh

/-- Parent directory of a remote path, as `str(Path(p).parent)`
computes it for the slash-separated paths this plugin builds. -/
def parentDir (p : String) : String :=
  let parts := p.splitOn "/"
  if parts.length ≤ 1 then "." else String.intercalate "/" parts.dropLast

/-- Embeds `SSHManager.transfer_file` (`ssh_manager.py` lines 64-86).

* `connectRes` is the `self.connect()` call before the `try` block, so
  its exception propagates unwrapped;
* inside the `try`, an exception from the `mkdir -p` helper command or
  from `scp_client.put` (`scpOutcome = some msg`) is re-raised wrapped
  as `SCP transfer failed: <msg>`;
* the result dict of the `mkdir` command is ignored — only a raise
  matters. -/
def transfer_file (cfg : JetsonConfig) (connectRes : Except String Unit)
    (mkdirBeh : Int → ExecBeh) (scpOutcome : Option String)
    (local_path remote_path : String) : Except String Unit :=
  match connectRes with
  | .error m => .error m
  | .ok _ =>
    let remote_dir := parentDir remote_path
    match execute_command cfg connectRes mkdirBeh
        ("mkdir -p " ++ remote_dir) none with
    | .error m => .error ("SCP transfer failed: " ++ m)
    | .ok _ =>
      match scpOutcome with
      | some m => .error ("SCP transfer failed: " ++ m)
      | none => .ok ()

/-! ## Package builder (`simple_package_builder.py`, class
`SimplePackageBuilder`)

The builder is modelled by the set of relative paths it stages into the
archive.  The local-filesystem oracle `exists_` answers `Path.exists()`;
`project_root` is `Path(__file__).parent.parent.parent`. -/

/-- The fixed catalog `self.face_recognition_files`
(`simple_package_builder.py` lines 27-41). -/
def face_recognition_files : List String :=
  ["face_features.pkl", "face_database.json", "model_params.json",
   "inference_server_rtsp.py", "model_server.py", "client.py",
   "Dockerfile.inference-server", "Dockerfile.model-server",
   "model_server_requirements.txt", "face_model_v2.pkl",
   "label_encoder.pkl", "random_forest_model.pkl", "amrit_test.jpg"]

/-- The ordered search roots of `_locate_files`
(`simple_package_builder.py` lines 50-54). -/
def search_paths (project_root : String) : List String :=
  [project_root ++ "/jetson", project_root ++ "/models",
   project_root ++ "/jetson/docker"]

/-- `_locate_files` for one file name: the first search root containing
the file wins; `none` when the file is absent from every root
(`simple_package_builder.py` lines 56-65). -/
def locate_file (exists_ : String → Bool) (project_root file_name : String) :
    Option String :=
  ((search_paths project_root).find?
      (fun p => exists_ (p ++ "/" ++ file_name))).map
    (fun p => p ++ "/" ++ file_name)

/-- What `model_path` resolves to on the local filesystem: a single
file, a directory (copied recursively as `mlflow_model`), or nothing. -/
inductive ModelSource where
  | file (file_name : String)
  | dir (entries : List String)
  | missing (path : String)
deriving DecidableEq

/-- Relative paths staged by `_copy_model_files`
(`simple_package_builder.py` lines 110-126): a file is copied by name, a
directory lands under `models/mlflow_model/`, a missing path yields the
placeholder note `models/model_placeholder.txt`. -/
def _copy_model_files : ModelSource → List String
  | .file n => ["models/" ++ n]
  | .dir entries => entries.map (fun e => "models/mlflow_model/" ++ e)
  | .missing _ => ["models/model_placeholder.txt"]

/-- The data-file catalog of `_copy_face_recognition_data`
(`simple_package_builder.py` line 132). -/
def data_files : List String :=
  ["face_features.pkl", "face_database.json", "model_params.json",
   "face_model_v2.pkl", "label_encoder.pkl", "random_forest_model.pkl"]

/-- Relative paths staged by `_copy_face_recognition_data`
(`simple_package_builder.py` lines 128-148): a located file is copied
into `data/`, a missing one produces the marker file
`data/<name>.placeholder`. -/
def _copy_face_recognition_data (exists_ : String → Bool)
    (project_root : String) : List String :=
  data_files.map (fun f =>
    match locate_file exists_ project_root f with
    | some p => if exists_ p then "data/" ++ f
                else "data/" ++ f ++ ".placeholder"
    | none => "data/" ++ f ++ ".placeholder")

/-- The script catalog of `_copy_scripts`
(`simple_package_builder.py` line 154). -/
def script_files : List String :=
  ["inference_server_rtsp.py", "client.py", "model_server.py",
   "amrit_test.jpg"]

/-- Relative paths staged by `_copy_scripts`
(`simple_package_builder.py` lines 150-169): a located script is copied
into `scripts/` (and made executable); a missing one is skipped —
no placeholder is written. -/
def _copy_scripts (exists_ : String → Bool) (project_root : String) :
    List String :=
  script_files.filterMap (fun s =>
    match locate_file exists_ project_root s with
    | some p => if exists_ p then some ("scripts/" ++ s) else none
    | none => none)

/-- The docker-file catalog of `_copy_docker_files`
(`simple_package_builder.py` line 173). -/
def docker_files : List String :=
  ["Dockerfile.inference-server", "Dockerfile.model-server",
   "model_server_requirements.txt"]

/-- Relative paths staged by `_copy_docker_files`
(`simple_package_builder.py` lines 171-190): located files land in
`docker/`; when none are found the subtree is omitted entirely and
missing files get no placeholder. -/
def _copy_docker_files (exists_ : String → Bool) (project_root : String) :
    List String :=
  docker_files.filterMap (fun d =>
    match locate_file exists_ project_root d with
    | some p => if exists_ p then some ("docker/" ++ d) else none
    | none => none)

/-- All relative paths staged by `build_simple_package` steps 1-5
(`simple_package_builder.py` lines 80-97), in staging order.  The Python
manifest sorts this list (`_get_file_list`); the theorems below are
membership statements, insensitive to order. -/
def staged_files (exists_ : String → Bool) (project_root : String)
    (model : ModelSource) : List String :=
  _copy_model_files model
    ++ _copy_face_recognition_data exists_ project_root
    ++ _copy_scripts exists_ project_root
    ++ _copy_docker_files exists_ project_root
    ++ ["README.txt"]

/-- Embeds `build_simple_package` (`simple_package_builder.py` lines
67-108), reduced to the file list it stages and archives.  Per-file
resolution never fails the build; only `_create_tar_package` raising
(`tarOutcome = some msg`, re-raised as `Package creation failed: ...`)
is fatal. -/
def build_simple_package (exists_ : String → Bool) (project_root : String)
    (model : ModelSource) (tarOutcome : Option String) :
    Except String (List String) :=
  match tarOutcome with
  | some m => .error ("Package creation failed: " ++ m)
  | none => .ok (staged_files exists_ project_root model)

/-! ## Remote filesystem model

The orchestrator never inspects anything below one level of the remote
base path, so the remote state is modelled as an association list from
deployment name to the list of files under that deployment directory. -/

/-- Remote state: deployment directory name ↦ files inside it. -/
def RemoteFS : Type := List (String × List String)

/-- Directory lookup by deployment name. -/
def RemoteFS.lookup (fs : RemoteFS) (name : String) : Option (List String) :=
  (List.find? (fun e => e.1 == name) fs).map (fun e => e.2)

/-- Effect of `mkdir -p <base>/<name>`: creates the directory when
absent, otherwise leaves the tree unchanged. -/
def RemoteFS.mkdirDep (name : String) (fs : RemoteFS) : RemoteFS :=
  match List.find? (fun e => e.1 == name) fs with
  | some _ => fs
  | none => (name, []) :: fs

/-- Effect of depositing one file inside a deployment directory (`scp`
to `<base>/<name>/<f>`; `transfer_file` creates the parent directory
itself, so the entry is created when absent). -/
def RemoteFS.addFile (fs : RemoteFS) (name f : String) : RemoteFS :=
  match List.find? (fun e => e.1 == name) fs with
  | some _ =>
    List.map (fun e => if e.1 == name then (e.1, f :: e.2) else e) fs
  | none => (name, [f]) :: fs

/-- Effect of `tar -xzf` inside a deployment directory: the archive
members appear in the directory. -/
def RemoteFS.addFiles (name : String) (files : List String)
    (fs : RemoteFS) : RemoteFS :=
  List.map (fun e => if e.1 == name then (e.1, files ++ e.2) else e) fs

/-- Effect of `rm -f <base>/<name>/<f>`. -/
def RemoteFS.removeFile (name f : String) (fs : RemoteFS) : RemoteFS :=
  List.map
    (fun e => if e.1 == name then (e.1, List.filter (fun g => !(g == f)) e.2) else e)
    fs

/-- Effect of `rm -rf <base>/<name>`. -/
def RemoteFS.rmDep (name : String) (fs : RemoteFS) : RemoteFS :=
  List.filter (fun e => !(e.1 == name)) fs

/-! ## Orchestrator (`simple_plugin.py`, class
`SimpleJetsonDeploymentTarget`)

Every `self.ssh_manager.execute_command(...)` call site gets a
`CallOutcome` oracle: the command completes with an exit status and
output, or the call raises — either from `connect()`
(`ConnectionError("SSH connection failed: ...")`) or from the transport
mid-command (`Exception("Failed to execute command '...': ...")`,
matching `execute_command` above). -/

/-- Outcome of one orchestrator-level `execute_command` call. -/
inductive CallOutcome where
  | completes (exit_status : Int) (stdout stderr : String)
  | connectFails (msg : String)
  | execRaises (msg : String)
deriving DecidableEq

/-- Result of one `ssh_manager.execute_command` call as the orchestrator
observes it; mirrors `execute_command` with the connect outcome folded
into the per-call oracle. -/
def runCall (co : CallOutcome) (command : String) :
    Except String CommandResult :=
  match co with
  | .completes es out err =>
    .ok { exit_status := es, stdout := out.trim, stderr := err.trim,
          command := command, success := es == 0 }
  | .connectFails m => .error ("SSH connection failed: " ++ m)
  | .execRaises m =>
    .error ("Failed to execute command \x27" ++ command ++ "\x27: " ++ m)

/-- A remote shell command mutates the remote tree exactly when it runs
to completion with exit status 0. -/
def callEffect (co : CallOutcome) (eff : RemoteFS → RemoteFS)
    (fs : RemoteFS) : RemoteFS :=
  match co with
  | .completes es _ _ => if es == 0 then eff fs else fs
  | _ => fs

/-- Did this call raise (as opposed to completing with any status)? -/
def callRaises : CallOutcome → Bool
  | .completes _ _ _ => false
  | _ => true

/-- Did this call complete with exit status 0? -/
def isCompletesZero : CallOutcome → Bool
  | .completes es _ _ => es == 0
  | _ => false

/-- `<base>/<name>`, the remote deployment directory. -/
def depPath (cfg : JetsonConfig) (name : String) : String :=
  cfg.deployment_base_path ++ "/" ++ name

/-- Python `flavor or "pytorch"` (`simple_plugin.py` line 78). -/
def pyOr (o : Option String) (d : String) : String :=
  match o with
  | some s => if s == "" then d else s
  | none => d

/-- The package record `build_simple_package` returns, as consumed by
`create_deployment` (`simple_package_builder.py` lines 102-108). -/
structure PackageInfo where
  package_path : String
  included_files : List String
  size_mb : Nat
deriving DecidableEq

/-- Decidable equality for `Except`, so that oracle records and embedded
results can be compared by evaluation. -/
instance exceptDecEq {ε α : Type} [DecidableEq ε] [DecidableEq α] :
    DecidableEq (Except ε α) := fun x y =>
  match x, y with
  | .ok a, .ok b =>
    if h : a = b then isTrue (by rw [h])
    else isFalse (by intro hh; cases hh; exact h rfl)
  | .error a, .error b =>
    if h : a = b then isTrue (by rw [h])
    else isFalse (by intro hh; cases hh; exact h rfl)
  | .ok _, .error _ => isFalse (by intro h; cases h)
  | .error _, .ok _ => isFalse (by intro h; cases h)

/-- Oracles for one `create_deployment` run: the outcome of every
external effect in source order. -/
structure CreateEnv where
  /-- `_download_artifact_from_uri`: local path, or the raise text. -/
  downloadOutcome : Except String String
  /-- `build_simple_package`: package record, or the raise text. -/
  packageOutcome : Except String PackageInfo
  /-- `mkdir -p` in `_transfer_files`. -/
  mkdirCall : CallOutcome
  /-- `ssh_manager.transfer_file`: `some msg` when it raises. -/
  transferOutcome : Option String
  /-- `tar -xzf` in `_extract_files`. -/
  extractCall : CallOutcome
  /-- `chmod +x` on `*.py` in `_extract_files`. -/
  chmodCall : CallOutcome
  /-- `rm -f` of the archive in `_extract_files`. -/
  rmPkgCall : CallOutcome
  /-- `rm -rf` in `_cleanup_deployment_files`. -/
  cleanupCall : CallOutcome
  /-- `datetime.now().isoformat()`. -/
  now : String
deriving DecidableEq

/-- Embeds `_download_model` (`simple_plugin.py` lines 167-181): a
download failure is re-raised as
`Failed to download model from <uri>: <msg>`. -/
def _download_model (outcome : Except String String) (model_uri : String) :
    Except String String :=
  match outcome with
  | .ok p => .ok p
  | .error m => .error ("Failed to download model from " ++ model_uri ++ ": " ++ m)

/-- The dict `_transfer_files` returns (`simple_plugin.py` lines
197-201). -/
structure TransferInfo where
  remote_package_path : String
  remote_deployment_path : String
deriving DecidableEq

/-- Embeds `_transfer_files` (`simple_plugin.py` lines 183-205),
returning (result, remote tree, commands attempted).  The result dict of
the `mkdir -p` command is ignored — only a raise aborts the step — and
every exception is re-raised as `Failed to transfer files: <msg>`. -/
def _transfer_files (env : CreateEnv) (cfg : JetsonConfig) (name : String)
    (fs : RemoteFS) :
    Except String TransferInfo × RemoteFS × List String :=
  let path := depPath cfg name
  let mkdirCmd := "mkdir -p " ++ path
  match runCall env.mkdirCall mkdirCmd with
  | .error m => (.error ("Failed to transfer files: " ++ m), fs, [mkdirCmd])
  | .ok _ =>
    let fs1 := callEffect env.mkdirCall (RemoteFS.mkdirDep name) fs
    let remotePkg := path ++ "/files_package.tar.gz"
    match env.transferOutcome with
    | some m => (.error ("Failed to transfer files: " ++ m), fs1, [mkdirCmd])
    | none =>
      (.ok { remote_package_path := remotePkg,
             remote_deployment_path := path },
       RemoteFS.addFile fs1 name "files_package.tar.gz", [mkdirCmd])

/-- The dict `_extract_files` returns (`simple_plugin.py` lines
225-229). -/
structure ExtractInfo where
  deployment_path : String
  timestamp : String
  status : String
deriving DecidableEq

/-- Embeds `_extract_files` (`simple_plugin.py` lines 207-233).  The
extraction command must complete with exit 0 (a completed non-zero exit
raises `Extraction failed: <stderr>`); the `chmod` and `rm -f` results
are ignored but their raises abort; every exception is re-raised as
`Failed to extract files: <msg>`. -/
def _extract_files (env : CreateEnv) (ti : TransferInfo) (name : String)
    (included : List String) (fs : RemoteFS) :
    Except String ExtractInfo × RemoteFS × List String :=
  let extractCmd :=
    "cd " ++ ti.remote_deployment_path ++ " && tar -xzf files_package.tar.gz"
  match runCall env.extractCall extractCmd with
  | .error m => (.error ("Failed to extract files: " ++ m), fs, [extractCmd])
  | .ok r =>
    if !r.success then
      (.error ("Failed to extract files: Extraction failed: " ++ r.stderr),
       fs, [extractCmd])
    else
      let fs1 := callEffect env.extractCall (RemoteFS.addFiles name included) fs
      let chmodCmd :=
        "find " ++ ti.remote_deployment_path
          ++ " -type f -name \x27*.py\x27 -exec chmod +x \x7b\x7d +"
      match runCall env.chmodCall chmodCmd with
      | .error m =>
        (.error ("Failed to extract files: " ++ m), fs1, [extractCmd, chmodCmd])
      | .ok _ =>
        let rmCmd := "rm -f " ++ ti.remote_package_path
        match runCall env.rmPkgCall rmCmd with
        | .error m =>
          (.error ("Failed to extract files: " ++ m), fs1,
           [extractCmd, chmodCmd, rmCmd])
        | .ok _ =>
          let fs2 := callEffect env.rmPkgCall
            (RemoteFS.removeFile name "files_package.tar.gz") fs1
          (.ok { deployment_path := ti.remote_deployment_path,
                 timestamp := env.now, status := "extracted" },
           fs2, [extractCmd, chmodCmd, rmCmd])

/-- Embeds `_cleanup_deployment_files` (`simple_plugin.py` lines
308-316): issues `rm -rf <base>/<name>`, ignores the command result and
swallows every exception — it always returns normally. -/
def _cleanup_deployment_files (co : CallOutcome) (cfg : JetsonConfig)
    (name : String) (fs : RemoteFS) : RemoteFS × List String :=
  let cmd := "rm -rf " ++ depPath cfg name
  (callEffect co (RemoteFS.rmDep name) fs, [cmd])

/-- Embeds `_cleanup_failed_transfer` (`simple_plugin.py` lines
318-324): another exception-swallowing wrapper around
`_cleanup_deployment_files`. -/
def _cleanup_failed_transfer (co : CallOutcome) (cfg : JetsonConfig)
    (name : String) (fs : RemoteFS) : RemoteFS × List String :=
  _cleanup_deployment_files co cfg name fs

/-- The deployment result dict `create_deployment` returns
(`simple_plugin.py` lines 75-86). -/
structure DeploymentResult where
  name : String
  model_uri : String
  flavor : String
  status : String
  deployment_type : String
  jetson_path : String
  transferred_files : List String
  created_at : String
  size_mb : Nat
deriving DecidableEq

/-- The `except` branch of `create_deployment` (`simple_plugin.py` lines
93-97): best-effort cleanup, then re-raise
`MlflowException("Failed to transfer files to Jetson: <cause>")`. -/
def createFail (env : CreateEnv) (cfg : JetsonConfig) (name cause : String)
    (fs : RemoteFS) (tr : List String) :
    Except String DeploymentResult × RemoteFS × List String :=
  let c := _cleanup_failed_transfer env.cleanupCall cfg name fs
  (.error ("Failed to transfer files to Jetson: " ++ cause), c.1, tr ++ c.2)

/-- Embeds `create_deployment` (`simple_plugin.py` lines 37-97):
download → package → transfer → extract, any raise diverts to
`createFail`.  Returns (result, remote tree, commands attempted). -/
def create_deployment (env : CreateEnv) (cfg : JetsonConfig)
    (name model_uri : String) (flavor : Option String) (fs : RemoteFS) :
    Except String DeploymentResult × RemoteFS × List String :=
  match _download_model env.downloadOutcome model_uri with
  | .error e => createFail env cfg name e fs []
  | .ok _localPath =>
    match env.packageOutcome with
    | .error e => createFail env cfg name e fs []
    | .ok pkg =>
      let t := _transfer_files env cfg name fs
      match t.1 with
      | .error e => createFail env cfg name e t.2.1 t.2.2
      | .ok ti =>
        let x := _extract_files env ti name pkg.included_files t.2.1
        match x.1 with
        | .error e => createFail env cfg name e x.2.1 (t.2.2 ++ x.2.2)
        | .ok ei =>
          (.ok { name := name, model_uri := model_uri,
                 flavor := pyOr flavor "pytorch",
                 status := "files_transferred",
                 deployment_type := "file_transfer_only",
                 jetson_path := ei.deployment_path,
                 transferred_files := pkg.included_files,
                 created_at := ei.timestamp,
                 size_mb := pkg.size_mb },
           x.2.1, t.2.2 ++ x.2.2)

/-- Embeds `update_deployment` (`simple_plugin.py` lines 99-114):
best-effort removal of the old files (`preCleanup` is the oracle for
that `rm -rf`), then `create_deployment` with the same arguments; any
raise is re-wrapped as `Failed to update deployment: <msg>`. -/
def update_deployment (env : CreateEnv) (preCleanup : CallOutcome)
    (cfg : JetsonConfig) (name model_uri : String) (flavor : Option String)
    (fs : RemoteFS) :
    Except String DeploymentResult × RemoteFS × List String :=
  let c := _cleanup_deployment_files preCleanup cfg name fs
  let r := create_deployment env cfg name model_uri flavor c.1
  match r.1 with
  | .ok v => (.ok v, r.2.1, c.2 ++ r.2.2)
  | .error e =>
    (.error ("Failed to update deployment: " ++ e), r.2.1, c.2 ++ r.2.2)

/-- Embeds `delete_deployment` (`simple_plugin.py` lines 116-126).
`_cleanup_deployment_files` swallows every exception, so the `except`
branch wrapping `MlflowException("Failed to delete deployment: ...")`
is unreachable and deletion always succeeds. -/
def delete_deployment (co : CallOutcome) (cfg : JetsonConfig)
    (name : String) (fs : RemoteFS) :
    Except String Unit × RemoteFS × List String :=
  let c := _cleanup_deployment_files co cfg name fs
  (.ok (), c.1, c.2)

/-- The spec-side composition for the update claim.  Modelled from the
spec: "equivalent to deleting the existing remote deployment directory
(best-effort) followed by `create` with the same arguments". -/
def spec_delete_then_create (env : CreateEnv) (preCleanup : CallOutcome)
    (cfg : JetsonConfig) (name model_uri : String) (flavor : Option String)
    (fs : RemoteFS) :
    Except String DeploymentResult × RemoteFS × List String :=
  let d := delete_deployment preCleanup cfg name fs
  let r := create_deployment env cfg name model_uri flavor d.2.1
  (r.1, r.2.1, d.2.2 ++ r.2.2)

/-- All of `create_deployment`'s steps succeeded: nothing raised, the
extraction exited 0 (`mkdir`, `chmod` and `rm -f` exit statuses are
ignored by the source, only their raises matter). -/
def allStepsOk (env : CreateEnv) : Bool :=
  env.downloadOutcome.toBool && env.packageOutcome.toBool
    && !callRaises env.mkdirCall && env.transferOutcome.isNone
    && isCompletesZero env.extractCall && !callRaises env.chmodCall
    && !callRaises env.rmPkgCall

/-! ## Remote scan: `_check_deployment_files`, `_list_file_deployments`,
`list_deployments`, `get_deployment` (`simple_plugin.py`) -/

/-- Oracles for the six probe commands `_check_deployment_files` issues
for one deployment name, in source order. -/
structure CheckEnv where
  countCall : CallOutcome
  modelCall : CallOutcome
  featCall : CallOutcome
  dbCall : CallOutcome
  paramsCall : CallOutcome
  inferCall : CallOutcome
deriving DecidableEq

/-- The fully-populated status dict `_check_deployment_files` builds
(`simple_plugin.py` lines 289-300). -/
structure FileStatus where
  file_count : Int
  has_model : Bool
  has_face_features : Bool
  has_face_database : Bool
  has_model_params : Bool
  has_inference_script : Bool
  has_face_files : Bool
deriving DecidableEq

/-- What `_check_deployment_files` returns: the full status dict, or —
when its `except` branch fired — the fallback dict
`\x7b"file_count": 0, "error": msg\x7d`, which lacks every `has_*`
key. -/
inductive CheckResult where
  | full (st : FileStatus)
  | errorDict (file_count : Int) (error : String)
deriving DecidableEq

/-- `bool(result["success"] and result["stdout"].strip())`
(`simple_plugin.py` line 293). -/
def probeHit (r : CommandResult) : Bool :=
  r.success && !(r.stdout.trim == "")

/-- Embeds `_check_deployment_files` (`simple_plugin.py` lines 270-306).
It never raises: any exception — a probe call raising, or `int()` on an
unparseable `wc -l` output — is caught and turned into the fallback
dict. -/
def _check_deployment_files (cenv : CheckEnv) (cfg : JetsonConfig)
    (name : String) : CheckResult :=
  let path := depPath cfg name
  match runCall cenv.countCall ("find " ++ path ++ " -type f | wc -l") with
  | .error m => .errorDict 0 m
  | .ok cr =>
    let fcountE : Except String Int :=
      if cr.success then
        match cr.stdout.toInt? with
        | some n => .ok n
        | none => .error ("invalid literal for int(): " ++ cr.stdout)
      else .ok 0
    match fcountE with
    | .error m => .errorDict 0 m
    | .ok fcount =>
      match runCall cenv.modelCall
          ("find " ++ path
            ++ " -name \x27*.pkl\x27 -o -name \x27*.pth\x27 -o -name \x27*.pt\x27 | head -1") with
      | .error m => .errorDict 0 m
      | .ok rm1 =>
        match runCall cenv.featCall
            ("find " ++ path ++ " -name \x27face_features.pkl\x27 | head -1") with
        | .error m => .errorDict 0 m
        | .ok rf =>
          match runCall cenv.dbCall
              ("find " ++ path ++ " -name \x27face_database.json\x27 | head -1") with
          | .error m => .errorDict 0 m
          | .ok rd =>
            match runCall cenv.paramsCall
                ("find " ++ path ++ " -name \x27model_params.json\x27 | head -1") with
            | .error m => .errorDict 0 m
            | .ok rp =>
              match runCall cenv.inferCall
                  ("find " ++ path ++ " -name \x27inference_server.py\x27 | head -1") with
              | .error m => .errorDict 0 m
              | .ok ri =>
                .full { file_count := fcount,
                        has_model := probeHit rm1,
                        has_face_features := probeHit rf,
                        has_face_database := probeHit rd,
                        has_model_params := probeHit rp,
                        has_inference_script := probeHit ri,
                        has_face_files :=
                          probeHit rf && probeHit rd && probeHit rp }

/-- The record `_list_file_deployments` appends per deployment directory
(`simple_plugin.py` lines 255-262). -/
structure DeploymentRecord where
  name : String
  path : String
  file_count : Int
  has_model : Bool
  has_face_files : Bool
  status : String
deriving DecidableEq

/-- `Path(d).name`: the last slash-separated component, as it applies to
the slash-separated absolute paths `find` prints. -/
def pathName (d : String) : String :=
  (d.splitOn "/").getLastD d

/-- The loop body of `_list_file_deployments` (`simple_plugin.py` lines
248-262) without its enclosing `try`: blank lines are skipped; for each
directory the status dict is fetched and the `has_model` /
`has_face_files` keys are read — on the fallback dict that read raises
`KeyError`, which the embedding surfaces as an `error`. -/
def recordsOf (cenvs : String → CheckEnv) (cfg : JetsonConfig) :
    List String → Except String (List DeploymentRecord)
  | [] => .ok []
  | d :: rest =>
    if d.trim == "" then recordsOf cenvs cfg rest
    else
      let nm := pathName d
      match _check_deployment_files (cenvs nm) cfg nm with
      | .errorDict _ _ => .error "KeyError: \x27has_model\x27"
      | .full st =>
        match recordsOf cenvs cfg rest with
        | .error e => .error e
        | .ok recs =>
          .ok ({ name := nm, path := d, file_count := st.file_count,
                 has_model := st.has_model,
                 has_face_files := st.has_face_files,
                 status := if st.file_count > 0 then "files_present"
                           else "empty" } :: recs)

/-- The enumeration command of `_list_file_deployments`
(`simple_plugin.py` line 239). -/
def findCmdOf (cfg : JetsonConfig) : String :=
  "find " ++ cfg.deployment_base_path ++ " -maxdepth 1 -type d -not -path "
    ++ cfg.deployment_base_path

/-- The body of `_list_file_deployments` (`simple_plugin.py` lines
237-264) without its `try`/`except`: the scan as an `Except`, where
`error` stands for an exception in flight.  A completed enumeration with
non-zero exit returns `[]` normally. -/
def listScanRaw (findCall : CallOutcome) (cenvs : String → CheckEnv)
    (cfg : JetsonConfig) : Except String (List DeploymentRecord) :=
  match runCall findCall (findCmdOf cfg) with
  | .error m => .error m
  | .ok r =>
    if !r.success then .ok []
    else recordsOf cenvs cfg (r.stdout.splitOn "\n")

/-- Embeds `_list_file_deployments` (`simple_plugin.py` lines 235-268):
the scan with its `except` branch, which degrades every in-flight
exception to `[]`. -/
def _list_file_deployments (findCall : CallOutcome)
    (cenvs : String → CheckEnv) (cfg : JetsonConfig) :
    List DeploymentRecord :=
  match listScanRaw findCall cenvs cfg with
  | .ok l => l
  | .error _ => []

/-- Embeds `list_deployments` (`simple_plugin.py` lines 128-134): yet
another `try`/`except` returning `[]`, around a body that already cannot
raise. -/
def list_deployments (findCall : CallOutcome) (cenvs : String → CheckEnv)
    (cfg : JetsonConfig) : List DeploymentRecord :=
  _list_file_deployments findCall cenvs cfg

/-- Embeds `get_deployment` (`simple_plugin.py` lines 136-152): finds
`name` in `list_deployments`, enriches the record with a fresh
`_check_deployment_files` probe; an absent name raises
`MlflowException`, which the method's own `except` re-wraps, yielding
`Failed to get deployment: Deployment '<name>' not found`. -/
def get_deployment (findCall : CallOutcome) (cenvs : String → CheckEnv)
    (cfg : JetsonConfig) (name : String) :
    Except String (DeploymentRecord × CheckResult) :=
  let deps := list_deployments findCall cenvs cfg
  match deps.find? (fun d => d.name == name) with
  | some d => .ok (d, _check_deployment_files (cenvs name) cfg name)
  | none =>
    .error ("Failed to get deployment: Deployment \x27" ++ name
      ++ "\x27 not found")

/-- The configuration with its retry budget replaced. -/
def setRetries (cfg : JetsonConfig) (k : Int) : JetsonConfig :=
  { cfg with max_retries := k }

/-! ## Helper lemmas -/

/-- `rm -rf` leaves no directory entry for the deleted name. -/
theorem lookup_rmDep (name : String) (fs : RemoteFS) :
    RemoteFS.lookup (RemoteFS.rmDep name fs) name = none := by
  unfold RemoteFS.lookup RemoteFS.rmDep
  rw [Option.map_eq_none']
  rw [List.find?_eq_none]
  intro x hx
  have := List.of_mem_filter hx
  simp at this
  simp [this]

/-- A completed-with-exit-0 `rm -rf` call removes the entry, whatever the
prior tree. -/
theorem lookup_callEffect_rmDep (co : CallOutcome)
    (h : isCompletesZero co = true) (name : String) (fs : RemoteFS) :
    RemoteFS.lookup (callEffect co (RemoteFS.rmDep name) fs) name = none := by
  cases co with
  | completes es o e =>
    simp [isCompletesZero] at h
    simp [callEffect, h, lookup_rmDep]
  | connectFails m => simp [isCompletesZero] at h
  | execRaises m => simp [isCompletesZero] at h

/-- Deleting a name twice is the same as deleting it once. -/
theorem rmDep_idem (name : String) (fs : RemoteFS) :
    RemoteFS.rmDep name (RemoteFS.rmDep name fs) = RemoteFS.rmDep name fs := by
  unfold RemoteFS.rmDep
  rw [List.filter_filter]
  simp

/-- Deleting an absent name is a no-op on the tree. -/
theorem rmDep_absent (name : String) (fs : RemoteFS)
    (h : RemoteFS.lookup fs name = none) :
    RemoteFS.rmDep name fs = fs := by
  unfold RemoteFS.lookup at h
  unfold RemoteFS.rmDep
  rw [Option.map_eq_none'] at h
  rw [List.find?_eq_none] at h
  apply List.filter_eq_self.mpr
  intro a ha
  have := h a ha
  simpa using this

/-! ## C3: `execute_command` result contract -/

/-- C3: for every command and every remote execution that completes,
`execute_command` returns a `CommandResult` whose `success` flag is true
exactly when the exit status is 0, and does not raise on a non-zero
status; it raises only when the transport itself fails (the `.raises`
oracle case, wrapped) or when `connect()` raised beforehand
(propagated unchanged). -/
theorem execute_command_success_flag :
    ∀ (cfg : JetsonConfig) (beh : Int → ExecBeh) (command : String)
      (timeout : Option Int),
    (∀ es out err, beh (effectiveTimeout cfg timeout) = .completes es out err →
        execute_command cfg (.ok ()) beh command timeout =
          .ok { exit_status := es, stdout := out.trim, stderr := err.trim,
                command := command, success := es == 0 }
        ∧ ((es == 0) = true ↔ es = 0))
    ∧ (∀ m, beh (effectiveTimeout cfg timeout) = .raises m →
        execute_command cfg (.ok ()) beh command timeout =
          .error ("Failed to execute command \x27" ++ command ++ "\x27: " ++ m))
    ∧ (∀ m, execute_command cfg (.error m) beh command timeout = .error m) := by
  intro cfg beh command timeout
  refine ⟨?_, ?_, ?_⟩
  · intro es out err h
    constructor
    · simp [execute_command, h]
    · exact beq_iff_eq
  · intro m h
    simp [execute_command, h]
  · intro m
    simp [execute_command]

/-- Witness for C3 at concrete inputs: a command completing with exit
status 2 yields a result, not an exception, and its success flag is
false. -/
theorem execute_command_success_flag_witness :
    execute_command { device_ip := "10.0.0.5" } (.ok ())
        (fun _ => ExecBeh.completes 2 "out" "err") "ls /tmp" none =
      .ok { exit_status := 2, stdout := "out".trim, stderr := "err".trim,
            command := "ls /tmp", success := (2 : Int) == 0 } :=
  ((execute_command_success_flag { device_ip := "10.0.0.5" }
      (fun _ => ExecBeh.completes 2 "out" "err") "ls /tmp" none).1
    2 "out" "err" rfl).1

/-! ## C4: `connect` self-healing contract -/

/-- C4: a cached session is probed with the no-op command under the
short probe timeout and reused on probe success; on probe failure the
cached session is discarded and `connect` behaves exactly like a fresh
connection attempt, caching and returning the newly established session;
a failed establishment raises `ConnectionError` (modelled as the
`SSH connection failed: ...` error). -/
theorem connect_self_healing :
    ∀ (cfg : JetsonConfig) (s : Session) (probe : String → Int → Bool)
      (fresh : Cred → Int → Except String Session),
    (probe probeCommand probeTimeout = true →
        SSHManager.connect cfg (some s) probe fresh = .ok (s, some s))
    ∧ (probe probeCommand probeTimeout = false →
        SSHManager.connect cfg (some s) probe fresh
          = SSHManager.connect cfg none probe fresh)
    ∧ (∀ s2, probe probeCommand probeTimeout = false →
        fresh (credMethod cfg) cfg.timeout = .ok s2 →
        SSHManager.connect cfg (some s) probe fresh = .ok (s2, some s2))
    ∧ (∀ m, fresh (credMethod cfg) cfg.timeout = .error m →
        SSHManager.connect cfg none probe fresh
            = .error ("SSH connection failed: " ++ m)
        ∧ (probe probeCommand probeTimeout = false →
            SSHManager.connect cfg (some s) probe fresh
              = .error ("SSH connection failed: " ++ m))) := by
  intro cfg s probe fresh
  refine ⟨?_, ?_, ?_, ?_⟩
  · intro h
    simp [SSHManager.connect, h]
  · intro h
    simp [SSHManager.connect, h]
  · intro s2 hp hf
    simp [SSHManager.connect, hp, freshConnect, hf]
  · intro m hf
    constructor
    · simp [SSHManager.connect, freshConnect, hf]
    · intro hp
      simp [SSHManager.connect, hp, freshConnect, hf]

/-- Witness for C4 at concrete inputs: a dead cached session (probe
fails) is transparently replaced by the newly opened session 2. -/
theorem connect_self_healing_witness :
    SSHManager.connect { device_ip := "10.0.0.5" } (some ⟨1⟩)
        (fun _ _ => false) (fun _ _ => .ok ⟨2⟩) = .ok (⟨2⟩, some ⟨2⟩) :=
  ((connect_self_healing { device_ip := "10.0.0.5" } ⟨1⟩
      (fun _ _ => false) (fun _ _ => .ok ⟨2⟩)).2.2.1 ⟨2⟩ rfl rfl)

/-! ## C10: `__str__` password hiding -/

/-- A configuration whose password coincides with the default username:
the masked field still says `***hidden***`, yet the rendered string
contains the password text (through the username field). -/
def cfgC10 : JetsonConfig :=
  { device_ip := "192.168.2.100", password := some "newcastleuni" }

/-- C10 counterexample: for this configuration with a non-empty
password, the password entry of the rendered dict is the literal
`***hidden***`, and yet `str(config)` does contain the password itself,
because the password equals the (independently rendered) username.  So
"does not contain the password" fails as stated. -/
theorem str_config_contains_password_counterexample :
    truthy cfgC10.password = true
    ∧ (maskPassword (to_dict cfgC10)).find? (fun kv => kv.1 == "password")
        = some ("password", .vstr "***hidden***")
    ∧ strContains (strOfConfig cfgC10) "newcastleuni" = true := by
  refine ⟨by decide, by decide, by decide⟩

/-- Masking a truthy password rewrites exactly the password entry, so
the masked dict equals the dict of the same configuration with the
password field set to the mask literal. -/
theorem maskPassword_to_dict (cfg : JetsonConfig) (p : String) (hp : p ≠ "") :
    maskPassword (to_dict { cfg with password := some p })
      = to_dict { cfg with password := some "***hidden***" } := by
  have hp1 : (p == "") = false := beq_eq_false_iff_ne.mpr hp
  simp [maskPassword, to_dict, optVal, truthyVal, hp1]

/-- C10 amended: `str(config)` renders the password field as the literal
`***hidden***` whenever the password is non-empty, and the resulting
string does not depend on the password value — any two configurations
differing only in their non-empty passwords produce identical string
representations.  Producing the string leaves the record itself
unchanged (the embedding is a pure function of the record; the Python
code mutates only the fresh dict `to_dict` returned).  The string may
still contain the password text when it coincides with text contributed
by other fields (see the counterexample). -/
theorem str_config_masks_password :
    ∀ (cfg : JetsonConfig) (p p' : String), p ≠ "" → p' ≠ "" →
    strOfConfig { cfg with password := some p }
        = strOfConfig { cfg with password := some p' }
    ∧ (maskPassword (to_dict { cfg with password := some p })).find?
        (fun kv => kv.1 == "password")
      = some ("password", .vstr "***hidden***")
    ∧ ({ cfg with password := some p } : JetsonConfig).password = some p := by
  intro cfg p p' hp hp'
  refine ⟨?_, ?_, rfl⟩
  · unfold strOfConfig
    rw [maskPassword_to_dict cfg p hp, maskPassword_to_dict cfg p' hp']
  · rw [maskPassword_to_dict cfg p hp]
    simp [to_dict, List.find?, optVal]

/-- Witness for C10 amended, at two concrete distinct passwords. -/
theorem str_config_masks_password_witness :
    strOfConfig { cfgC10 with password := some "hunter2" }
        = strOfConfig { cfgC10 with password := some "swordfish" }
    ∧ (maskPassword (to_dict { cfgC10 with password := some "hunter2" })).find?
        (fun kv => kv.1 == "password")
      = some ("password", .vstr "***hidden***")
    ∧ ({ cfgC10 with password := some "hunter2" } : JetsonConfig).password
        = some "hunter2" :=
  str_config_masks_password cfgC10 "hunter2" "swordfish"
    (by decide) (by decide)

/-! ## C8: credential resolution after `validate` -/

/-- A configuration supplying both an SSH key and a password. -/
def cfgC8 : JetsonConfig :=
  { device_ip := "192.168.2.100", ssh_key_path := some "/keys/jetson",
    password := some "pw" }

/-- The local-filesystem oracle for the C8 counterexample: exactly the
supplied key file exists. -/
def fxC8 : String → Bool := fun s => s == "/keys/jetson"

/-- C8 counterexample: `validate` returns without raising on a
configuration carrying BOTH a usable SSH key (the field is set and the
key file exists) and a usable password — refuting "exactly one
credential path resolves to a usable authentication method". -/
theorem validate_both_credentials_counterexample :
    validate fxC8 id cfgC8 = .ok cfgC8
    ∧ usable_key fxC8 id cfgC8 = true
    ∧ usable_password cfgC8 = true := by
  refine ⟨by decide, by decide, by decide⟩


/-- C8 amended: after `validate` succeeds, AT LEAST one credential path
is usable — a truthy key field whose (expanded) key file exists, or a
truthy password — and a truthy key field always comes with an existing
key file.  "Neither usable" is impossible, but "both usable" is allowed
(see the counterexample).  The hypothesis on `expanduser` records that
`Path.expanduser` never maps one of the searched default key paths to
the empty string. -/
theorem validate_credential_resolution :
    ∀ (file_exists : String → Bool) (expanduser : String → String)
      (cfg cfg' : JetsonConfig),
    (∀ p ∈ default_key_paths, expanduser p ≠ "") →
    validate file_exists expanduser cfg = .ok cfg' →
    (usable_key file_exists expanduser cfg' || usable_password cfg') = true
    ∧ (truthy cfg'.ssh_key_path = true →
        file_exists (expanduser (cfg'.ssh_key_path.getD "")) = true) := by
  intro fx ex cfg cfg' hex h
  unfold validate validateNumeric at h
  split at h
  · simp at h
  · by_cases hk : truthy cfg.ssh_key_path = true
    · rw [if_neg (by simp [hk])] at h
      simp only [hk, if_true] at h
      split_ifs at h
      all_goals simp_all [usable_key, usable_password]
    · simp only [Bool.not_eq_true] at hk
      by_cases hp : truthy cfg.password = true
      · rw [if_neg (by simp [hp])] at h
        simp only [hk, Bool.false_eq_true, if_false] at h
        split_ifs at h
        all_goals simp_all [usable_key, usable_password]
      · simp only [Bool.not_eq_true] at hp
        rw [if_pos (by simp [hk, hp])] at h
        cases hfind : List.find? (fun p => fx (ex p)) default_key_paths with
        | none => rw [hfind] at h; simp at h
        | some p =>
          rw [hfind] at h
          have hmem : p ∈ default_key_paths := List.mem_of_find?_eq_some hfind
          simp only [truthy, hex p hmem] at h
          split_ifs at h
          all_goals
            replace h := Except.ok.inj h
          all_goals
            subst h
          all_goals
            simp_all [usable_key, usable_password, truthy, hex p hmem]

/-- A password-only configuration, for the C8 witness. -/
def cfgPw : JetsonConfig := { device_ip := "192.168.2.100", password := some "pw" }

/-- Witness for C8 amended: a password-only configuration validates and
resolves the password path. -/
theorem validate_credential_resolution_witness :
    (usable_key (fun _ => false) id cfgPw || usable_password cfgPw) = true
    ∧ (truthy cfgPw.ssh_key_path = true →
        (fun _ => false) (id (cfgPw.ssh_key_path.getD "")) = true) :=
  validate_credential_resolution (fun _ => false) id cfgPw cfgPw
    (by decide) (by decide)

/-! ## C2: placeholders for missing companion files -/

/-- C2 counterexample: with no companion file present in any search
root, the build still succeeds, but the staged package contains NO entry
at all for the script-catalog file `client.py` — neither a copy nor a
placeholder (only the data catalog gets placeholders).  So "every
companion file in the builder's fixed catalogs gets a placeholder when
absent" fails as stated. -/
theorem build_package_placeholder_counterexample :
    build_simple_package (fun _ => false) "/proj" (.file "model.bin") none
      = .ok ["models/model.bin",
             "data/face_features.pkl.placeholder",
             "data/face_database.json.placeholder",
             "data/model_params.json.placeholder",
             "data/face_model_v2.pkl.placeholder",
             "data/label_encoder.pkl.placeholder",
             "data/random_forest_model.pkl.placeholder",
             "README.txt"]
    ∧ "client.py" ∈ script_files
    ∧ (staged_files (fun _ => false) "/proj" (.file "model.bin")).all
        (fun e => !(strContains e "client.py")) = true := by
  refine ⟨by decide, by decide, by decide⟩

/-- A companion file is located and its source still exists (the
condition `if source_path and Path(source_path).exists()`). -/
def located (exists_ : String → Bool) (project_root s : String) : Bool :=
  match locate_file exists_ project_root s with
  | some p => exists_ p
  | none => false

/-- Copy-with-skip over a catalog equals filtering the catalog by
`located` and prefixing — the shape shared by `_copy_scripts` and
`_copy_docker_files`. -/
theorem filterMap_located (exists_ : String → Bool) (project_root : String)
    (pre : String) (l : List String) :
    l.filterMap (fun s =>
        match locate_file exists_ project_root s with
        | some p => if exists_ p then some (pre ++ s) else none
        | none => none)
    = (l.filter (fun s => located exists_ project_root s)).map
        (fun s => pre ++ s) := by
  induction l with
  | nil => rfl
  | cons a t ih =>
    cases hl : locate_file exists_ project_root a with
    | none =>
      simp [List.filterMap_cons, List.filter_cons, located, hl, ih]
    | some p =>
      by_cases he : exists_ p
      · simp [List.filterMap_cons, List.filter_cons, located, hl, he, ih]
      · simp [List.filterMap_cons, List.filter_cons, located, hl, he, ih]

/-- C2 amended: only the data-file catalog produces placeholder entries:
a data file absent from every search root stages
`data/<name>.placeholder`; a missing script or docker file is skipped
with no placeholder (the staged `scripts/` and `docker/` subtrees hold
exactly the located catalog entries); the build succeeds regardless of
missing companion files, failing only when archive creation fails. -/
theorem build_package_placeholder_policy :
    ∀ (exists_ : String → Bool) (project_root : String) (model : ModelSource),
    (∀ f ∈ data_files, locate_file exists_ project_root f = none →
        "data/" ++ f ++ ".placeholder"
          ∈ staged_files exists_ project_root model)
    ∧ _copy_scripts exists_ project_root
        = (script_files.filter (fun s => located exists_ project_root s)).map
            (fun s => "scripts/" ++ s)
    ∧ _copy_docker_files exists_ project_root
        = (docker_files.filter (fun s => located exists_ project_root s)).map
            (fun s => "docker/" ++ s)
    ∧ build_simple_package exists_ project_root model none
        = .ok (staged_files exists_ project_root model)
    ∧ (∀ m, build_simple_package exists_ project_root model (some m)
        = .error ("Package creation failed: " ++ m)) := by
  intro exists_ project_root model
  refine ⟨?_, ?_, ?_, rfl, fun m => rfl⟩
  · intro f hf hloc
    unfold staged_files
    have : "data/" ++ f ++ ".placeholder"
        ∈ _copy_face_recognition_data exists_ project_root := by
      unfold _copy_face_recognition_data
      exact List.mem_map.mpr ⟨f, hf, by rw [hloc]⟩
    simp [List.mem_append, this]
  · exact filterMap_located exists_ project_root "scripts/" script_files
  · exact filterMap_located exists_ project_root "docker/" docker_files

/-- Witness for C2 amended, with every file absent: the data placeholder
for `face_features.pkl` is staged while scripts and docker are empty. -/
theorem build_package_placeholder_policy_witness :
    "data/" ++ "face_features.pkl" ++ ".placeholder"
      ∈ staged_files (fun _ => false) "/proj" (.file "model.bin")
    ∧ _copy_scripts (fun _ => false) "/proj"
        = (script_files.filter (fun s => located (fun _ => false) "/proj" s)).map
            (fun s => "scripts/" ++ s)
    ∧ (∀ m, build_simple_package (fun _ => false) "/proj" (.file "model.bin")
        (some m) = .error ("Package creation failed: " ++ m)) :=
  ⟨(build_package_placeholder_policy (fun _ => false) "/proj"
      (.file "model.bin")).1 "face_features.pkl" (by decide) (by decide),
   (build_package_placeholder_policy (fun _ => false) "/proj"
      (.file "model.bin")).2.1,
   (build_package_placeholder_policy (fun _ => false) "/proj"
      (.file "model.bin")).2.2.2.2⟩

/-! ## C6: `delete_deployment` never fails and is idempotent -/

/-- C6: `delete_deployment` always returns success — including for a
name that was never created (its `except` branch is unreachable because
`_cleanup_deployment_files` swallows every exception) — deleting twice
leaves the same remote tree as deleting once, and deleting an absent
name leaves the tree untouched. -/
theorem delete_deployment_idempotent :
    ∀ (co : CallOutcome) (cfg : JetsonConfig) (name : String) (fs : RemoteFS),
    (delete_deployment co cfg name fs).1 = .ok ()
    ∧ (delete_deployment co cfg name
          ((delete_deployment co cfg name fs).2.1)).2.1
        = (delete_deployment co cfg name fs).2.1
    ∧ (RemoteFS.lookup fs name = none →
        (delete_deployment co cfg name fs).2.1 = fs) := by
  intro co cfg name fs
  refine ⟨rfl, ?_, ?_⟩
  · unfold delete_deployment _cleanup_deployment_files
    cases co with
    | completes es out err =>
      by_cases hz : (es == 0) = true
      · simp [callEffect, hz, rmDep_idem]
      · simp only [Bool.not_eq_true] at hz
        simp [callEffect, hz]
    | connectFails m => simp [callEffect]
    | execRaises m => simp [callEffect]
  · intro habs
    unfold delete_deployment _cleanup_deployment_files
    cases co with
    | completes es out err =>
      by_cases hz : (es == 0) = true
      · simp [callEffect, hz, rmDep_absent name fs habs]
      · simp only [Bool.not_eq_true] at hz
        simp [callEffect, hz]
    | connectFails m => simp [callEffect]
    | execRaises m => simp [callEffect]

/-- Witness for C6 at concrete inputs: deleting the never-created name
`demo` from a tree holding only `other` succeeds and changes nothing. -/
theorem delete_deployment_idempotent_witness :
    (delete_deployment (.completes 0 "" "") { device_ip := "10.0.0.5" }
        "demo" [("other", ["a.txt"])]).1 = .ok ()
    ∧ (delete_deployment (.completes 0 "" "") { device_ip := "10.0.0.5" }
        "demo" [("other", ["a.txt"])]).2.1 = [("other", ["a.txt"])] :=
  ⟨(delete_deployment_idempotent (.completes 0 "" "")
      { device_ip := "10.0.0.5" } "demo" [("other", ["a.txt"])]).1,
   (delete_deployment_idempotent (.completes 0 "" "")
      { device_ip := "10.0.0.5" } "demo" [("other", ["a.txt"])]).2.2
     (by decide)⟩

/-! ## C7: `list_deployments` degrades to the empty list -/

/-- C7: every failure mode of the remote scan yields `[]` instead of an
exception: the enumeration command raising, the enumeration completing
with non-zero exit, and any failure while deriving a record (a probe
raising or producing an unparseable count makes
`_check_deployment_files` fall back to its error dict, and reading the
`has_model` key of that dict raises `KeyError`, caught by the `except`
branch).  When the scan succeeds, its records are returned unchanged;
`list_deployments` itself is total — it never raises. -/
theorem list_deployments_degrades_to_empty :
    ∀ (findCall : CallOutcome) (cenvs : String → CheckEnv)
      (cfg : JetsonConfig),
    (∀ m, runCall findCall (findCmdOf cfg) = .error m →
        list_deployments findCall cenvs cfg = [])
    ∧ (∀ r, runCall findCall (findCmdOf cfg) = .ok r → r.success = false →
        list_deployments findCall cenvs cfg = [])
    ∧ (∀ r m, runCall findCall (findCmdOf cfg) = .ok r → r.success = true →
        recordsOf cenvs cfg (r.stdout.splitOn "\n") = .error m →
        list_deployments findCall cenvs cfg = [])
    ∧ (∀ l, listScanRaw findCall cenvs cfg = .ok l →
        list_deployments findCall cenvs cfg = l) := by
  intro findCall cenvs cfg
  refine ⟨?_, ?_, ?_, ?_⟩
  · intro m hm
    unfold list_deployments _list_file_deployments listScanRaw
    simp [hm]
  · intro r hr hsucc
    unfold list_deployments _list_file_deployments listScanRaw
    simp [hr, hsucc]
  · intro r m hr hsucc hrec
    unfold list_deployments _list_file_deployments listScanRaw
    simp [hr, hsucc, hrec]
  · intro l hl
    unfold list_deployments _list_file_deployments
    simp [hl]

/-- Witness for C7 at concrete inputs: an enumeration transport failure
degrades to the empty list. -/
theorem list_deployments_degrades_to_empty_witness :
    list_deployments (.execRaises "broken pipe")
        (fun _ => ⟨.completes 0 "" "", .completes 0 "" "", .completes 0 "" "",
          .completes 0 "" "", .completes 0 "" "", .completes 0 "" ""⟩)
        { device_ip := "10.0.0.5" } = [] :=
  (list_deployments_degrades_to_empty (.execRaises "broken pipe")
      (fun _ => ⟨.completes 0 "" "", .completes 0 "" "", .completes 0 "" "",
        .completes 0 "" "", .completes 0 "" "", .completes 0 "" ""⟩)
      { device_ip := "10.0.0.5" }).1 _ rfl

/-! ## C5: `update_deployment` refines delete-then-create -/

/-- The `except` branch of `create_deployment` removes the deployment
entry whenever its best-effort `rm -rf` completes with exit 0. -/
theorem createFail_lookup (env : CreateEnv) (cfg : JetsonConfig)
    (name cause : String) (fs : RemoteFS) (tr : List String)
    (h : isCompletesZero env.cleanupCall = true) :
    RemoteFS.lookup ((createFail env cfg name cause fs tr).2.1) name
      = none := by
  unfold createFail _cleanup_failed_transfer _cleanup_deployment_files
  exact lookup_callEffect_rmDep env.cleanupCall h name fs

/-- A failed `create_deployment` whose best-effort cleanup command
completed with exit 0 leaves no deployment entry behind. -/
theorem create_error_lookup (env : CreateEnv) (cfg : JetsonConfig)
    (name uri : String) (flavor : Option String) (fs : RemoteFS)
    (h : isCompletesZero env.cleanupCall = true) :
    ∀ e, (create_deployment env cfg name uri flavor fs).1 = .error e →
      RemoteFS.lookup ((create_deployment env cfg name uri flavor fs).2.1)
        name = none := by
  intro e he
  unfold create_deployment at he ⊢
  cases hd : _download_model env.downloadOutcome uri with
  | error m =>
    simp only [hd] at he ⊢
    exact createFail_lookup env cfg name m fs [] h
  | ok lp =>
    simp only [hd] at he ⊢
    cases hp : env.packageOutcome with
    | error m =>
      simp only [hp] at he ⊢
      exact createFail_lookup env cfg name m fs [] h
    | ok pkg =>
      simp only [hp] at he ⊢
      cases ht : (_transfer_files env cfg name fs).1 with
      | error m =>
        simp only [ht] at he ⊢
        exact createFail_lookup env cfg name m _ _ h
      | ok ti =>
        simp only [ht] at he ⊢
        cases hx : (_extract_files env ti name pkg.included_files
            (_transfer_files env cfg name fs).2.1).1 with
        | error m =>
          simp only [hx] at he ⊢
          exact createFail_lookup env cfg name m _ _ h
        | ok ei =>
          simp only [hx] at he
          cases he

/-- C5: `update_deployment` is observationally equivalent to a
best-effort delete followed by `create_deployment` with the same
arguments: the final remote tree and command trace always coincide, the
success results coincide, and — when the best-effort cleanup command of
a failing create completes with exit 0 — a failure between deletion and
recreation leaves no deployment entry for the name.  (The two sides
differ only in the text of the raised message: `update` re-wraps it as
`Failed to update deployment: ...`.) -/
theorem update_refines_delete_then_create :
    ∀ (env : CreateEnv) (preCleanup : CallOutcome) (cfg : JetsonConfig)
      (name model_uri : String) (flavor : Option String) (fs : RemoteFS),
    (update_deployment env preCleanup cfg name model_uri flavor fs).2
        = (spec_delete_then_create env preCleanup cfg name model_uri flavor
            fs).2
    ∧ (∀ v, (update_deployment env preCleanup cfg name model_uri flavor
            fs).1 = .ok v
        ↔ (spec_delete_then_create env preCleanup cfg name model_uri flavor
            fs).1 = .ok v)
    ∧ (isCompletesZero env.cleanupCall = true →
        ∀ e, (update_deployment env preCleanup cfg name model_uri flavor
            fs).1 = .error e →
          RemoteFS.lookup
            ((update_deployment env preCleanup cfg name model_uri flavor
              fs).2.1) name = none) := by
  intro env pre cfg name uri flavor fs
  unfold update_deployment spec_delete_then_create delete_deployment
  cases hr : (create_deployment env cfg name uri flavor
      (_cleanup_deployment_files pre cfg name fs).1).1 with
  | ok v =>
    simp only [hr]
    refine ⟨trivial, fun _ => trivial, ?_⟩
    intro _ e he
    cases he
  | error m =>
    simp only [hr]
    refine ⟨trivial, ?_, ?_⟩
    · intro v'
      constructor
      · intro hh; cases hh
      · intro hh; cases hh
    · intro hcl e _
      exact create_error_lookup env cfg name uri flavor
        (_cleanup_deployment_files pre cfg name fs).1 hcl m hr

/-- A concrete run whose transfer step raises after the remote directory
was created: shared by the C5 and C1 witnesses. -/
def envW : CreateEnv :=
  { downloadOutcome := .ok "/tmp/model",
    packageOutcome := .ok { package_path := "/tmp/p.tar.gz",
                            included_files := ["models/m.bin"], size_mb := 1 },
    mkdirCall := .completes 0 "" "",
    transferOutcome := some "disk full",
    extractCall := .completes 0 "" "",
    chmodCall := .completes 0 "" "",
    rmPkgCall := .completes 0 "" "",
    cleanupCall := .completes 0 "" "",
    now := "2026-01-01T00:00:00" }

/-- Concrete device configuration for the orchestrator witnesses. -/
def cfgW : JetsonConfig := { device_ip := "10.0.0.5" }

/-- Concrete remote tree holding a previous `demo` deployment. -/
def fsW : RemoteFS := [("demo", ["old.txt"])]

/-- Witness for C5 at concrete inputs: a transfer failure during update
leaves state and trace identical to delete-then-create, and no `demo`
entry remains. -/
theorem update_refines_delete_then_create_witness :
    (update_deployment envW (.completes 0 "" "") cfgW "demo" "models:/m/1"
        none fsW).2
      = (spec_delete_then_create envW (.completes 0 "" "") cfgW "demo"
          "models:/m/1" none fsW).2
    ∧ RemoteFS.lookup
        ((update_deployment envW (.completes 0 "" "") cfgW "demo"
          "models:/m/1" none fsW).2.1) "demo" = none :=
  ⟨(update_refines_delete_then_create envW (.completes 0 "" "") cfgW "demo"
      "models:/m/1" none fsW).1,
   (update_refines_delete_then_create envW (.completes 0 "" "") cfgW "demo"
      "models:/m/1" none fsW).2.2 rfl _ rfl⟩

/-! ## C1: `create_deployment` failure handling -/

/-- C1: `create_deployment` returns success exactly when every step
succeeded — it never returns a partial result.  On any step raising, it
issues the best-effort `rm -rf` of the deployment directory (the command
appears in the attempted trace, and when that command completes with
exit 0 no deployment entry remains), re-raises a deployment-level
failure wrapping the original cause text, and the returned result is
independent of the cleanup outcome — cleanup failures are swallowed,
never escalated. -/
theorem create_deployment_failure_policy :
    ∀ (env : CreateEnv) (cfg : JetsonConfig) (name model_uri : String)
      (flavor : Option String) (fs : RemoteFS),
    (create_deployment env cfg name model_uri flavor fs).1.toBool
        = allStepsOk env
    ∧ (∀ co, (create_deployment { env with cleanupCall := co } cfg name
          model_uri flavor fs).1
        = (create_deployment env cfg name model_uri flavor fs).1)
    ∧ (∀ e, (create_deployment env cfg name model_uri flavor fs).1
          = .error e →
        (∃ cause, e = "Failed to transfer files to Jetson: " ++ cause)
        ∧ ("rm -rf " ++ depPath cfg name)
            ∈ (create_deployment env cfg name model_uri flavor fs).2.2
        ∧ (isCompletesZero env.cleanupCall = true →
            RemoteFS.lookup
              ((create_deployment env cfg name model_uri flavor fs).2.1)
              name = none)) := by
  intro env cfg name uri flavor fs
  have hclean : ∀ e, (create_deployment env cfg name uri flavor fs).1
        = .error e →
      isCompletesZero env.cleanupCall = true →
      RemoteFS.lookup ((create_deployment env cfg name uri flavor fs).2.1)
        name = none :=
    fun e he h => create_error_lookup env cfg name uri flavor fs h e he
  obtain ⟨dl, pk, mk, tf, ex, ch, rp, cl, nw⟩ := env
  cases dl with
  | error m =>
    refine ⟨by simp [create_deployment, _download_model, _transfer_files, _extract_files, createFail, _cleanup_failed_transfer, _cleanup_deployment_files, runCall, callEffect, allStepsOk, callRaises, isCompletesZero, Except.toBool, depPath], fun co => by simp [create_deployment, _download_model, _transfer_files, _extract_files, createFail, _cleanup_failed_transfer, _cleanup_deployment_files, runCall, callEffect, allStepsOk, callRaises, isCompletesZero, Except.toBool, depPath], ?_⟩
    intro e he
    have he0 := he
    simp [create_deployment, _download_model, _transfer_files, _extract_files, createFail, _cleanup_failed_transfer, _cleanup_deployment_files, runCall, callEffect, allStepsOk, callRaises, isCompletesZero, Except.toBool, depPath] at he
    subst he
    exact ⟨⟨_, rfl⟩, by simp [create_deployment, _download_model, _transfer_files, _extract_files, createFail, _cleanup_failed_transfer, _cleanup_deployment_files, runCall, callEffect, allStepsOk, callRaises, isCompletesZero, Except.toBool, depPath], fun h => hclean _ he0 h⟩
  | ok lp =>
    cases pk with
    | error m =>
      refine ⟨by simp [create_deployment, _download_model, _transfer_files, _extract_files, createFail, _cleanup_failed_transfer, _cleanup_deployment_files, runCall, callEffect, allStepsOk, callRaises, isCompletesZero, Except.toBool, depPath], fun co => by simp [create_deployment, _download_model, _transfer_files, _extract_files, createFail, _cleanup_failed_transfer, _cleanup_deployment_files, runCall, callEffect, allStepsOk, callRaises, isCompletesZero, Except.toBool, depPath], ?_⟩
      intro e he
      have he0 := he
      simp [create_deployment, _download_model, _transfer_files, _extract_files, createFail, _cleanup_failed_transfer, _cleanup_deployment_files, runCall, callEffect, allStepsOk, callRaises, isCompletesZero, Except.toBool, depPath] at he
      subst he
      exact ⟨⟨_, rfl⟩, by simp [create_deployment, _download_model, _transfer_files, _extract_files, createFail, _cleanup_failed_transfer, _cleanup_deployment_files, runCall, callEffect, allStepsOk, callRaises, isCompletesZero, Except.toBool, depPath], fun h => hclean _ he0 h⟩
    | ok pkg =>
      cases mk with
      | connectFails m =>
        refine ⟨by simp [create_deployment, _download_model, _transfer_files, _extract_files, createFail, _cleanup_failed_transfer, _cleanup_deployment_files, runCall, callEffect, allStepsOk, callRaises, isCompletesZero, Except.toBool, depPath], fun co => by simp [create_deployment, _download_model, _transfer_files, _extract_files, createFail, _cleanup_failed_transfer, _cleanup_deployment_files, runCall, callEffect, allStepsOk, callRaises, isCompletesZero, Except.toBool, depPath], ?_⟩
        intro e he
        have he0 := he
        simp [create_deployment, _download_model, _transfer_files, _extract_files, createFail, _cleanup_failed_transfer, _cleanup_deployment_files, runCall, callEffect, allStepsOk, callRaises, isCompletesZero, Except.toBool, depPath] at he
        subst he
        exact ⟨⟨_, rfl⟩, by simp [create_deployment, _download_model, _transfer_files, _extract_files, createFail, _cleanup_failed_transfer, _cleanup_deployment_files, runCall, callEffect, allStepsOk, callRaises, isCompletesZero, Except.toBool, depPath], fun h => hclean _ he0 h⟩
      | execRaises m =>
        refine ⟨by simp [create_deployment, _download_model, _transfer_files, _extract_files, createFail, _cleanup_failed_transfer, _cleanup_deployment_files, runCall, callEffect, allStepsOk, callRaises, isCompletesZero, Except.toBool, depPath], fun co => by simp [create_deployment, _download_model, _transfer_files, _extract_files, createFail, _cleanup_failed_transfer, _cleanup_deployment_files, runCall, callEffect, allStepsOk, callRaises, isCompletesZero, Except.toBool, depPath], ?_⟩
        intro e he
        have he0 := he
        simp [create_deployment, _download_model, _transfer_files, _extract_files, createFail, _cleanup_failed_transfer, _cleanup_deployment_files, runCall, callEffect, allStepsOk, callRaises, isCompletesZero, Except.toBool, depPath] at he
        subst he
        exact ⟨⟨_, rfl⟩, by simp [create_deployment, _download_model, _transfer_files, _extract_files, createFail, _cleanup_failed_transfer, _cleanup_deployment_files, runCall, callEffect, allStepsOk, callRaises, isCompletesZero, Except.toBool, depPath], fun h => hclean _ he0 h⟩
      | completes mes mo me =>
        cases tf with
        | some m =>
          refine ⟨by simp [create_deployment, _download_model, _transfer_files, _extract_files, createFail, _cleanup_failed_transfer, _cleanup_deployment_files, runCall, callEffect, allStepsOk, callRaises, isCompletesZero, Except.toBool, depPath], fun co => by simp [create_deployment, _download_model, _transfer_files, _extract_files, createFail, _cleanup_failed_transfer, _cleanup_deployment_files, runCall, callEffect, allStepsOk, callRaises, isCompletesZero, Except.toBool, depPath], ?_⟩
          intro e he
          have he0 := he
          simp [create_deployment, _download_model, _transfer_files, _extract_files, createFail, _cleanup_failed_transfer, _cleanup_deployment_files, runCall, callEffect, allStepsOk, callRaises, isCompletesZero, Except.toBool, depPath] at he
          subst he
          exact ⟨⟨_, rfl⟩, by simp [create_deployment, _download_model, _transfer_files, _extract_files, createFail, _cleanup_failed_transfer, _cleanup_deployment_files, runCall, callEffect, allStepsOk, callRaises, isCompletesZero, Except.toBool, depPath], fun h => hclean _ he0 h⟩
        | none =>
          cases ex with
          | connectFails m =>
            refine ⟨by simp [create_deployment, _download_model, _transfer_files, _extract_files, createFail, _cleanup_failed_transfer, _cleanup_deployment_files, runCall, callEffect, allStepsOk, callRaises, isCompletesZero, Except.toBool, depPath], fun co => by simp [create_deployment, _download_model, _transfer_files, _extract_files, createFail, _cleanup_failed_transfer, _cleanup_deployment_files, runCall, callEffect, allStepsOk, callRaises, isCompletesZero, Except.toBool, depPath], ?_⟩
            intro e he
            have he0 := he
            simp [create_deployment, _download_model, _transfer_files, _extract_files, createFail, _cleanup_failed_transfer, _cleanup_deployment_files, runCall, callEffect, allStepsOk, callRaises, isCompletesZero, Except.toBool, depPath] at he
            subst he
            exact ⟨⟨_, rfl⟩, by simp [create_deployment, _download_model, _transfer_files, _extract_files, createFail, _cleanup_failed_transfer, _cleanup_deployment_files, runCall, callEffect, allStepsOk, callRaises, isCompletesZero, Except.toBool, depPath], fun h => hclean _ he0 h⟩
          | execRaises m =>
            refine ⟨by simp [create_deployment, _download_model, _transfer_files, _extract_files, createFail, _cleanup_failed_transfer, _cleanup_deployment_files, runCall, callEffect, allStepsOk, callRaises, isCompletesZero, Except.toBool, depPath], fun co => by simp [create_deployment, _download_model, _transfer_files, _extract_files, createFail, _cleanup_failed_transfer, _cleanup_deployment_files, runCall, callEffect, allStepsOk, callRaises, isCompletesZero, Except.toBool, depPath], ?_⟩
            intro e he
            have he0 := he
            simp [create_deployment, _download_model, _transfer_files, _extract_files, createFail, _cleanup_failed_transfer, _cleanup_deployment_files, runCall, callEffect, allStepsOk, callRaises, isCompletesZero, Except.toBool, depPath] at he
            subst he
            exact ⟨⟨_, rfl⟩, by simp [create_deployment, _download_model, _transfer_files, _extract_files, createFail, _cleanup_failed_transfer, _cleanup_deployment_files, runCall, callEffect, allStepsOk, callRaises, isCompletesZero, Except.toBool, depPath], fun h => hclean _ he0 h⟩
          | completes ees eo ee =>
            by_cases hz : (ees == 0) = true
            · cases ch with
              | connectFails m =>
                refine ⟨by simp [create_deployment, _download_model, _transfer_files, _extract_files, createFail, _cleanup_failed_transfer, _cleanup_deployment_files, runCall, callEffect, allStepsOk, callRaises, isCompletesZero, Except.toBool, depPath, hz], fun co => by simp [create_deployment, _download_model, _transfer_files, _extract_files, createFail, _cleanup_failed_transfer, _cleanup_deployment_files, runCall, callEffect, allStepsOk, callRaises, isCompletesZero, Except.toBool, depPath, hz], ?_⟩
                intro e he
                have he0 := he
                simp [create_deployment, _download_model, _transfer_files, _extract_files, createFail, _cleanup_failed_transfer, _cleanup_deployment_files, runCall, callEffect, allStepsOk, callRaises, isCompletesZero, Except.toBool, depPath, hz] at he
                subst he
                exact ⟨⟨_, rfl⟩, by simp [create_deployment, _download_model, _transfer_files, _extract_files, createFail, _cleanup_failed_transfer, _cleanup_deployment_files, runCall, callEffect, allStepsOk, callRaises, isCompletesZero, Except.toBool, depPath, hz], fun h => hclean _ he0 h⟩
              | execRaises m =>
                refine ⟨by simp [create_deployment, _download_model, _transfer_files, _extract_files, createFail, _cleanup_failed_transfer, _cleanup_deployment_files, runCall, callEffect, allStepsOk, callRaises, isCompletesZero, Except.toBool, depPath, hz], fun co => by simp [create_deployment, _download_model, _transfer_files, _extract_files, createFail, _cleanup_failed_transfer, _cleanup_deployment_files, runCall, callEffect, allStepsOk, callRaises, isCompletesZero, Except.toBool, depPath, hz], ?_⟩
                intro e he
                have he0 := he
                simp [create_deployment, _download_model, _transfer_files, _extract_files, createFail, _cleanup_failed_transfer, _cleanup_deployment_files, runCall, callEffect, allStepsOk, callRaises, isCompletesZero, Except.toBool, depPath, hz] at he
                subst he
                exact ⟨⟨_, rfl⟩, by simp [create_deployment, _download_model, _transfer_files, _extract_files, createFail, _cleanup_failed_transfer, _cleanup_deployment_files, runCall, callEffect, allStepsOk, callRaises, isCompletesZero, Except.toBool, depPath, hz], fun h => hclean _ he0 h⟩
              | completes ces cso cse =>
                cases rp with
                | connectFails m =>
                  refine ⟨by simp [create_deployment, _download_model, _transfer_files, _extract_files, createFail, _cleanup_failed_transfer, _cleanup_deployment_files, runCall, callEffect, allStepsOk, callRaises, isCompletesZero, Except.toBool, depPath, hz], fun co => by simp [create_deployment, _download_model, _transfer_files, _extract_files, createFail, _cleanup_failed_transfer, _cleanup_deployment_files, runCall, callEffect, allStepsOk, callRaises, isCompletesZero, Except.toBool, depPath, hz], ?_⟩
                  intro e he
                  have he0 := he
                  simp [create_deployment, _download_model, _transfer_files, _extract_files, createFail, _cleanup_failed_transfer, _cleanup_deployment_files, runCall, callEffect, allStepsOk, callRaises, isCompletesZero, Except.toBool, depPath, hz] at he
                  subst he
                  exact ⟨⟨_, rfl⟩, by simp [create_deployment, _download_model, _transfer_files, _extract_files, createFail, _cleanup_failed_transfer, _cleanup_deployment_files, runCall, callEffect, allStepsOk, callRaises, isCompletesZero, Except.toBool, depPath, hz], fun h => hclean _ he0 h⟩
                | execRaises m =>
                  refine ⟨by simp [create_deployment, _download_model, _transfer_files, _extract_files, createFail, _cleanup_failed_transfer, _cleanup_deployment_files, runCall, callEffect, allStepsOk, callRaises, isCompletesZero, Except.toBool, depPath, hz], fun co => by simp [create_deployment, _download_model, _transfer_files, _extract_files, createFail, _cleanup_failed_transfer, _cleanup_deployment_files, runCall, callEffect, allStepsOk, callRaises, isCompletesZero, Except.toBool, depPath, hz], ?_⟩
                  intro e he
                  have he0 := he
                  simp [create_deployment, _download_model, _transfer_files, _extract_files, createFail, _cleanup_failed_transfer, _cleanup_deployment_files, runCall, callEffect, allStepsOk, callRaises, isCompletesZero, Except.toBool, depPath, hz] at he
                  subst he
                  exact ⟨⟨_, rfl⟩, by simp [create_deployment, _download_model, _transfer_files, _extract_files, createFail, _cleanup_failed_transfer, _cleanup_deployment_files, runCall, callEffect, allStepsOk, callRaises, isCompletesZero, Except.toBool, depPath, hz], fun h => hclean _ he0 h⟩
                | completes rps rso rse =>
                  refine ⟨by simp [create_deployment, _download_model, _transfer_files, _extract_files, createFail, _cleanup_failed_transfer, _cleanup_deployment_files, runCall, callEffect, allStepsOk, callRaises, isCompletesZero, Except.toBool, depPath, hz], fun co => by simp [create_deployment, _download_model, _transfer_files, _extract_files, createFail, _cleanup_failed_transfer, _cleanup_deployment_files, runCall, callEffect, allStepsOk, callRaises, isCompletesZero, Except.toBool, depPath, hz], ?_⟩
                  intro e he
                  simp [create_deployment, _download_model, _transfer_files, _extract_files, createFail, _cleanup_failed_transfer, _cleanup_deployment_files, runCall, callEffect, allStepsOk, callRaises, isCompletesZero, Except.toBool, depPath, hz] at he
            · simp only [Bool.not_eq_true] at hz
              refine ⟨by simp [create_deployment, _download_model, _transfer_files, _extract_files, createFail, _cleanup_failed_transfer, _cleanup_deployment_files, runCall, callEffect, allStepsOk, callRaises, isCompletesZero, Except.toBool, depPath, hz], fun co => by simp [create_deployment, _download_model, _transfer_files, _extract_files, createFail, _cleanup_failed_transfer, _cleanup_deployment_files, runCall, callEffect, allStepsOk, callRaises, isCompletesZero, Except.toBool, depPath, hz], ?_⟩
              intro e he
              have he0 := he
              simp [create_deployment, _download_model, _transfer_files, _extract_files, createFail, _cleanup_failed_transfer, _cleanup_deployment_files, runCall, callEffect, allStepsOk, callRaises, isCompletesZero, Except.toBool, depPath, hz] at he
              subst he
              exact ⟨⟨_, rfl⟩, by simp [create_deployment, _download_model, _transfer_files, _extract_files, createFail, _cleanup_failed_transfer, _cleanup_deployment_files, runCall, callEffect, allStepsOk, callRaises, isCompletesZero, Except.toBool, depPath, hz], fun h => hclean _ he0 h⟩

/-- Witness for C1 at concrete inputs: `envW`'s transfer step raises, so
creation fails with the wrapped cause, the cleanup command is attempted,
and no `demo` entry remains. -/
theorem create_deployment_failure_policy_witness :
    (create_deployment envW cfgW "demo" "models:/m/1" none fsW).1.toBool
        = allStepsOk envW
    ∧ ((∃ cause, "Failed to transfer files to Jetson: "
            ++ ("Failed to transfer files: " ++ "disk full")
          = "Failed to transfer files to Jetson: " ++ cause)
        ∧ ("rm -rf " ++ depPath cfgW "demo")
            ∈ (create_deployment envW cfgW "demo" "models:/m/1" none fsW).2.2
        ∧ (isCompletesZero envW.cleanupCall = true →
            RemoteFS.lookup
              ((create_deployment envW cfgW "demo" "models:/m/1" none
                fsW).2.1) "demo" = none)) :=
  ⟨(create_deployment_failure_policy envW cfgW "demo" "models:/m/1" none
      fsW).1,
   (create_deployment_failure_policy envW cfgW "demo" "models:/m/1" none
      fsW).2.2 _ rfl⟩

/-! ## C9: the retry budget is never consulted -/

/-- The record-derivation loop ignores the retry budget. -/
theorem recordsOf_ignores_retries (cenvs : String → CheckEnv)
    (cfg : JetsonConfig) (k k' : Int) (l : List String) :
    recordsOf cenvs (setRetries cfg k) l
      = recordsOf cenvs (setRetries cfg k') l := by
  induction l with
  | nil => rfl
  | cons d rest ih =>
    unfold recordsOf
    simp only [ih]
    rfl

/-- C9: two configurations differing only in their (non-negative) retry
budgets are indistinguishable to every operation of the connection
manager and the orchestrator: `connect`, `execute_command`,
`transfer_file`, `create_deployment`, `update_deployment`,
`delete_deployment`, `list_deployments` and `get_deployment` all return
identical results on identical inputs — `max_retries` is never
consulted. -/
theorem max_retries_not_consulted :
    ∀ (cfg : JetsonConfig) (k k' : Int), 0 ≤ k → 0 ≤ k' →
    (∀ cached probe fresh,
        SSHManager.connect (setRetries cfg k) cached probe fresh
          = SSHManager.connect (setRetries cfg k') cached probe fresh)
    ∧ (∀ connectRes beh command timeout,
        execute_command (setRetries cfg k) connectRes beh command timeout
          = execute_command (setRetries cfg k') connectRes beh command
              timeout)
    ∧ (∀ connectRes mkdirBeh scpOutcome lp rp,
        transfer_file (setRetries cfg k) connectRes mkdirBeh scpOutcome lp rp
          = transfer_file (setRetries cfg k') connectRes mkdirBeh scpOutcome
              lp rp)
    ∧ (∀ env name uri flavor fs,
        create_deployment env (setRetries cfg k) name uri flavor fs
          = create_deployment env (setRetries cfg k') name uri flavor fs)
    ∧ (∀ env pre name uri flavor fs,
        update_deployment env pre (setRetries cfg k) name uri flavor fs
          = update_deployment env pre (setRetries cfg k') name uri flavor
              fs)
    ∧ (∀ co name fs,
        delete_deployment co (setRetries cfg k) name fs
          = delete_deployment co (setRetries cfg k') name fs)
    ∧ (∀ findCall cenvs,
        list_deployments findCall cenvs (setRetries cfg k)
          = list_deployments findCall cenvs (setRetries cfg k'))
    ∧ (∀ findCall cenvs name,
        get_deployment findCall cenvs (setRetries cfg k) name
          = get_deployment findCall cenvs (setRetries cfg k') name) := by
  intro cfg k k' _ _
  have hlist : ∀ findCall cenvs,
      list_deployments findCall cenvs (setRetries cfg k)
        = list_deployments findCall cenvs (setRetries cfg k') := by
    intro fc cenvs
    unfold list_deployments _list_file_deployments listScanRaw
    simp only [recordsOf_ignores_retries cenvs cfg k k']
    rfl
  refine ⟨fun _ _ _ => rfl, fun _ _ _ _ => rfl, fun _ _ _ _ _ => rfl,
    fun _ _ _ _ _ => rfl, fun _ _ _ _ _ _ => rfl, fun _ _ _ => rfl,
    hlist, ?_⟩
  intro fc cenvs n
  unfold get_deployment
  rw [hlist fc cenvs]
  rfl

/-- Witness for C9 at concrete inputs: retry budgets 0 and 7 give
identical behaviour for command execution, deletion and creation. -/
theorem max_retries_not_consulted_witness :
    execute_command (setRetries cfgW 0) (.ok ())
        (fun _ => .completes 0 "" "") "ls" none
      = execute_command (setRetries cfgW 7) (.ok ())
          (fun _ => .completes 0 "" "") "ls" none
    ∧ delete_deployment (.completes 0 "" "") (setRetries cfgW 0) "demo" fsW
      = delete_deployment (.completes 0 "" "") (setRetries cfgW 7) "demo" fsW
    ∧ create_deployment envW (setRetries cfgW 0) "demo" "models:/m/1" none fsW
      = create_deployment envW (setRetries cfgW 7) "demo" "models:/m/1" none
          fsW :=
  ⟨(max_retries_not_consulted cfgW 0 7 (by decide) (by decide)).2.1
      (.ok ()) (fun _ => .completes 0 "" "") "ls" none,
   (max_retries_not_consulted cfgW 0 7 (by decide) (by decide)).2.2.2.2.2.1
      (.completes 0 "" "") "demo" fsW,
   (max_retries_not_consulted cfgW 0 7 (by decide) (by decide)).2.2.2.1
      envW "demo" "models:/m/1" none fsW⟩
